import Mathlib

/-!
Verification of the hashing demo (src/main.py) against its specification.

The program delegates all actual digest computation to an external
cryptographic library (Python's hashlib).  We embed that external
collaborator as a structure of opaque-but-lawful functions (`Hashlib`),
and translate the program's own logic — the length-fallback table, the
digest engine `hash_with_algorithm`, the file hasher `hash_file`, the
downloader `download_file` and the benchmark harness
`generate_hash_speed_test` — directly from the source.

Wall-clock time (`timeit.default_timer`, a monotonic clock) is modelled
as a monotone function from an invocation counter to rational seconds;
each digest-engine call consumes two consecutive readings (start, stop).

Byte sequences are `List Nat` (each entry a byte value), file systems
and the network are explicit `String → Except String (List Nat)` maps
where an `error` carries the message of the exception the real call
would raise.
-/

/-- The closed set of algorithm identifiers the program enumerates
(src/main.py line 129). -/
def supportedAlgorithms : List String :=
  ["sha3_512", "blake2s", "md5", "sha384", "shake_256", "sha3_384",
   "blake2b", "sha1", "sm3", "ripemd160", "sha3_224", "shake_128",
   "mdc2", "sha512", "whirlpool", "md4", "md5-sha1", "sha512_256",
   "sha512_224", "sha224", "sha3_256", "sha256"]

/-- The Length Resolver: the static if/elif table of
src/main.py lines 27–41, mapping an algorithm identifier to the output
length requested from `digest(length)` when a plain `digest()` call
raised `TypeError`.  `none` models the `length is None` case. -/
def requiredLength (algorithm : String) : Option Nat :=
  if algorithm ∈ ["sha512_224", "sha224"] then some 28
  else if algorithm ∈ ["blake2s"] then some 32
  else if algorithm ∈ ["sha256", "sha3_256", "md5", "md4", "ripemd160", "sm3", "mdc2"] then some 64
  else if algorithm ∈ ["sha384", "sha3_384"] then some 96
  else if algorithm ∈ ["blake2b", "sha512", "sha3_512", "md5-sha1", "sha512_256", "whirlpool"] then some 128
  else if algorithm ∈ ["shake_128", "sha3_224"] then some 56
  else if algorithm ∈ ["shake_256"] then some 64
  else none

/-- A monotonic clock (`timeit.default_timer`): reading `i` is the value
returned by the `i`-th call to the timer in program order. -/
structure Clock where
  read : Nat → ℚ
  mono : Monotone read

/-- Model of the external hashlib library.  `supported a` says
`hashlib.new(a)` succeeds; `xof a` says the resulting object's
`digest()` / `hexdigest()` methods require an explicit length argument
(raise `TypeError` without one); `fixedDigest` and `xofDigest` are the
digest computations themselves, and the `Prop` fields record the
library facts the program relies on: digests have the advertised
length, every identifier in the program's list is accepted by
`hashlib.new`, and among those identifiers exactly the two SHAKE
extendable-output functions need an explicit length. -/
structure Hashlib where
  supported : String → Bool
  xof : String → Bool
  fixedDigest : String → List Nat → List Nat
  xofDigest : String → List Nat → Nat → List Nat
  fixedLen : String → Nat
  fixed_len_ok : ∀ a d, (fixedDigest a d).length = fixedLen a
  xof_len_ok : ∀ a d n, (xofDigest a d n).length = n
  supported_all : ∀ a ∈ supportedAlgorithms, supported a = true
  xof_iff : ∀ a ∈ supportedAlgorithms,
    (xof a = true ↔ (a = "shake_128" ∨ a = "shake_256"))

/-- The Digest Engine: src/main.py lines 8–49 (`hash_with_algorithm`).
`n` is the invocation counter of the clock: the call reads the clock at
`n` (start) and `n + 1` (stop).  An `Except.error` carries the message
of the exception the Python code would raise: `hashlib.new` raising
`ValueError` on an unsupported name, or the function's own
`ValueError` when the length table has no entry. -/
def hash_with_algorithm (H : Hashlib) (clk : Clock) (n : Nat)
    (data : List Nat) (algorithm : String) :
    Except String (List Nat × ℚ) :=
  if H.supported algorithm = true then
    let hashed? : Except String (List Nat) :=
      if H.xof algorithm = true then
        match requiredLength algorithm with
        | none => .error ("Unknown length for algorithm: " ++ algorithm)
        | some length => .ok (H.xofDigest algorithm data length)
      else
        .ok (H.fixedDigest algorithm data)
    match hashed? with
    | .error e => .error e
    | .ok hashed_output =>
        .ok (hashed_output, clk.read (n + 1) - clk.read n)
  else
    .error ("unsupported hash type " ++ algorithm)

/-- One hexadecimal digit, lowercase. -/
def hexChar (n : Nat) : Char :=
  if n < 10 then Char.ofNat (48 + n) else Char.ofNat (87 + n)

/-- Two lowercase hex digits of one byte. -/
def byteToHex (b : Nat) : String :=
  String.mk [hexChar (b / 16 % 16), hexChar (b % 16)]

/-- Lowercase hexadecimal rendering of a byte sequence:
`bytes.hex()`, which is what hashlib's `hexdigest()` returns. -/
def toHex (bs : List Nat) : String :=
  String.join (bs.map byteToHex)

/-- Message of the `TypeError` raised by `hexdigest()` on an
extendable-output hash when no length argument is given. -/
def digestTypeErrorMsg : String :=
  "hexdigest() missing required argument: length"

/-- The File Hasher: src/main.py lines 71–90 (`hash_file`).  `fs` maps a
path to its contents, or to the message of the `OSError` opening it
raises.  The result pairs the returned value (the hex digest, or `None`
as `Option.none`) with the list of lines printed.  Every exception —
I/O, unsupported algorithm name, or the `TypeError` from calling
`hexdigest()` on a SHAKE object — is caught by the single
`except Exception` handler, which prints and returns `None`. -/
def hash_file (H : Hashlib) (fs : String → Except String (List Nat))
    (filepath : String) (algorithm : String) :
    Option String × List String :=
  match fs filepath with
  | .error e => (none, ["Error hashing file: " ++ e])
  | .ok data =>
    if H.supported algorithm = true then
      if H.xof algorithm = true then
        (none, ["Error hashing file: " ++ digestTypeErrorMsg])
      else
        (some (toHex (H.fixedDigest algorithm data)), [])
    else
      (none, ["Error hashing file: unsupported hash type " ++ algorithm])

/-- The File Fetcher: src/main.py lines 52–69 (`download_file`).
`net` maps a URL to the fetched bytes or to the message of the
exception `urlopen`/`read` raises; `canWrite` says whether
`open(filename, mode wb)` and the write succeed; `writeErr` is the
message of the `OSError` when they do not.  Returns the boolean result,
the file system after the call, and the lines printed. -/
def download_file (net : String → Except String (List Nat))
    (fs : String → Option (List Nat)) (canWrite : String → Bool)
    (writeErr : String) (url : String) (filename : String) :
    Bool × (String → Option (List Nat)) × List String :=
  match net url with
  | .error e => (false, fs, ["Error downloading file: " ++ e])
  | .ok data =>
    if canWrite filename then
      (true, fun p => if p = filename then some data else fs p, [])
    else
      (false, fs, ["Error downloading file: " ++ writeErr])

/-- The Benchmark Harness: src/main.py lines 93–109
(`generate_hash_speed_test`).  For each size, builds the payload
`b'a' * size` (byte 97 repeated), hashes it through the Digest Engine
and appends the `(size, elapsed_time)` pair.  Each engine call consumes
two clock readings, so the counter advances by 2 per size.  An
exception from the engine propagates (there is no handler here). -/
def generate_hash_speed_test (H : Hashlib) (clk : Clock) :
    Nat → List Nat → String → Except String (List (Nat × ℚ))
  | _, [], _ => .ok []
  | n, size :: rest, algorithm =>
    match hash_with_algorithm H clk n (List.replicate size 97) algorithm with
    | .error e => .error e
    | .ok (_, elapsed_time) =>
      match generate_hash_speed_test H clk (n + 2) rest algorithm with
      | .error e => .error e
      | .ok results => .ok ((size, elapsed_time) :: results)


/-- The digest part of the engine's behaviour, without the clock: used
to factor proofs about `hash_with_algorithm`. -/
def engineDigest (H : Hashlib) (data : List Nat) (a : String) :
    Except String (List Nat) :=
  if H.supported a = true then
    if H.xof a = true then
      match requiredLength a with
      | none => .error ("Unknown length for algorithm: " ++ a)
      | some length => .ok (H.xofDigest a data length)
    else .ok (H.fixedDigest a data)
  else .error ("unsupported hash type " ++ a)

theorem hash_eq_map (H : Hashlib) (clk : Clock) (n : Nat)
    (data : List Nat) (a : String) :
    hash_with_algorithm H clk n data a =
      (engineDigest H data a).map
        (fun dg => (dg, clk.read (n + 1) - clk.read n)) := by
  unfold hash_with_algorithm engineDigest
  by_cases hs : H.supported a = true
  · simp only [hs, if_true]
    by_cases hx : H.xof a = true
    · simp only [hx, if_true]
      cases requiredLength a <;> simp [Except.map]
    · simp only [hx, if_false]
      simp [Except.map]
  · simp [hs, Except.map]

/-- A concrete model of hashlib, used to evaluate the embedding at
concrete inputs: digests are byte repetitions of the data's byte sum,
and one extra extendable-output name "shake_512" (outside the program's
enumerated list, absent from the length table) is accepted. -/
def demoHashlib : Hashlib where
  supported := fun a =>
    decide (a ∈ supportedAlgorithms) || decide (a = "shake_512")
  xof := fun a =>
    decide (a = "shake_128" ∨ a = "shake_256" ∨ a = "shake_512")
  fixedDigest := fun _ d => List.replicate 32 (d.sum % 256)
  xofDigest := fun _ d n => List.replicate n (d.sum % 256)
  fixedLen := fun _ => 32
  fixed_len_ok := by intro a d; simp
  xof_len_ok := by intro a d n; simp
  supported_all := by decide
  xof_iff := by decide

/-- A clock advancing one second per reading. -/
def demoClock : Clock where
  read := fun i => (i : ℚ)
  mono := Nat.mono_cast

/-- A clock whose readings accelerate (reading i is i² seconds), so
successive intervals differ. -/
def sqClock : Clock where
  read := fun i => ((i * i : ℕ) : ℚ)
  mono := fun _ _ h => Nat.cast_le.mpr (Nat.mul_le_mul h h)

/-- A file system with one readable file "f" containing bytes
97 98 99 (the string "abc"); every other path raises. -/
def demoFs : String → Except String (List Nat) := fun p =>
  if p = "f" then .ok [97, 98, 99]
  else .error "No such file or directory"

/-- For every identifier in the program's list the digest step
succeeds, and the digest's length is the table entry for the two SHAKE
functions and the primitive's fixed length otherwise. -/
theorem engineDigest_ok (H : Hashlib) (data : List Nat) (a : String)
    (ha : a ∈ supportedAlgorithms) :
    ∃ dg, engineDigest H data a = .ok dg ∧
      (H.xof a = true → requiredLength a = some dg.length) ∧
      (H.xof a = false → dg.length = H.fixedLen a) := by
  have hs := H.supported_all a ha
  by_cases hx : H.xof a = true
  · rcases (H.xof_iff a ha).mp hx with h | h <;> subst h
    · refine ⟨H.xofDigest "shake_128" data 56, ?_, ?_, ?_⟩
      · simp [engineDigest, hs, hx,
          show requiredLength "shake_128" = some 56 from by decide]
      · intro _
        rw [H.xof_len_ok]
        decide
      · intro h; rw [hx] at h; cases h
    · refine ⟨H.xofDigest "shake_256" data 64, ?_, ?_, ?_⟩
      · simp [engineDigest, hs, hx,
          show requiredLength "shake_256" = some 64 from by decide]
      · intro _
        rw [H.xof_len_ok]
        decide
      · intro h; rw [hx] at h; cases h
  · rw [Bool.not_eq_true] at hx
    refine ⟨H.fixedDigest a data, ?_, ?_, ?_⟩
    · simp [engineDigest, hs, hx]
    · intro h; rw [hx] at h; cases h
    · intro _; exact H.fixed_len_ok a data

/-- For every identifier in the program's list the engine returns a
digest and a non-negative elapsed time. -/
theorem hash_ok_of_supported (H : Hashlib) (clk : Clock) (n : Nat)
    (data : List Nat) (a : String) (ha : a ∈ supportedAlgorithms) :
    ∃ dg t, hash_with_algorithm H clk n data a = .ok (dg, t) ∧ 0 ≤ t := by
  obtain ⟨dg, hok, -⟩ := engineDigest_ok H data a ha
  refine ⟨dg, clk.read (n + 1) - clk.read n, ?_, ?_⟩
  · rw [hash_eq_map, hok]; rfl
  · have := clk.mono (Nat.le_succ n)
    simpa using this

/-- Equality of `Except` results is decidable when both components
are, so claims can be evaluated at concrete inputs. -/
instance {ε α : Type} [DecidableEq ε] [DecidableEq α] :
    DecidableEq (Except ε α) := fun x y =>
  match x, y with
  | .ok a, .ok b =>
    if h : a = b then .isTrue (by rw [h])
    else .isFalse (fun hc => by cases hc; exact h rfl)
  | .error e, .error f =>
    if h : e = f then .isTrue (by rw [h])
    else .isFalse (fun hc => by cases hc; exact h rfl)
  | .ok _, .error _ => .isFalse (fun hc => by cases hc)
  | .error _, .ok _ => .isFalse (fun hc => by cases hc)

/-- Claim C1, counterexample: the claim says the Length Resolver does
not contain the fixed-length algorithm sha256, but the table of
src/main.py line 32 maps sha256 to 64. -/
theorem requiredLength_sha256_not_none : requiredLength "sha256" ≠ none := by
  decide

/-- Claim C1 (amended): the Length Resolver's static table resolves
shake_128 to 56 bytes, and it also contains the fixed-length algorithm
sha256, resolved to 64 bytes (not "none"). -/
theorem requiredLength_shake128_sha256 :
    requiredLength "shake_128" = some 56 ∧
    requiredLength "sha256" = some 64 := by
  decide

/-- Claim C3: for every supported identifier and every byte sequence
the engine returns a digest whose byte-length is the Length Table's
entry when the primitive is extendable-output, and the primitive's
intrinsic fixed length otherwise; the digest (hence its length) is the
same at any two invocation states, so the length is deterministic
across repeated calls with identical data. -/
theorem hash_digest_length (H : Hashlib) (clk clk' : Clock) (n n' : Nat)
    (d : List Nat) (a : String) (ha : a ∈ supportedAlgorithms) :
    ∃ dg t, hash_with_algorithm H clk n d a = .ok (dg, t) ∧
      (H.xof a = true → requiredLength a = some dg.length) ∧
      (H.xof a = false → dg.length = H.fixedLen a) ∧
      ∃ t', hash_with_algorithm H clk' n' d a = .ok (dg, t') := by
  obtain ⟨dg, hok, h1, h2⟩ := engineDigest_ok H d a ha
  refine ⟨dg, clk.read (n + 1) - clk.read n, ?_, h1, h2,
    clk'.read (n' + 1) - clk'.read n', ?_⟩ <;>
  · rw [hash_eq_map, hok]; rfl

/-- Claim C3, witness at shake_128 on the bytes 1 2 and two distinct
clock states. -/
theorem hash_digest_length_witness :
    "shake_128" ∈ supportedAlgorithms ∧
    (∃ dg t, hash_with_algorithm demoHashlib demoClock 0 [1, 2] "shake_128" = .ok (dg, t) ∧
      (demoHashlib.xof "shake_128" = true → requiredLength "shake_128" = some dg.length) ∧
      (demoHashlib.xof "shake_128" = false → dg.length = demoHashlib.fixedLen "shake_128") ∧
      ∃ t', hash_with_algorithm demoHashlib sqClock 4 [1, 2] "shake_128" = .ok (dg, t')) :=
  ⟨by decide, hash_digest_length demoHashlib demoClock sqClock 0 4 [1, 2] "shake_128" (by decide)⟩

/-- Claim C5: when the primitive signals the variable-length failure
(`xof`) and the Length Resolver knows no length for the identifier, the
engine fails with the ValueError naming the unknown algorithm, for
every input data. -/
theorem hash_unknown_length_error (H : Hashlib) (clk : Clock) (n : Nat)
    (d : List Nat) (a : String) (hs : H.supported a = true)
    (hx : H.xof a = true) (hn : requiredLength a = none) :
    hash_with_algorithm H clk n d a =
      .error ("Unknown length for algorithm: " ++ a) := by
  rw [hash_eq_map]
  simp [engineDigest, hs, hx, hn, Except.map]

/-- Claim C5, witness: the extendable-output name "shake_512" accepted
by the demo library has no table entry, and the engine reports it. -/
theorem hash_unknown_length_error_witness :
    demoHashlib.supported "shake_512" = true ∧
    demoHashlib.xof "shake_512" = true ∧
    requiredLength "shake_512" = none ∧
    hash_with_algorithm demoHashlib demoClock 0 [] "shake_512" =
      .error ("Unknown length for algorithm: " ++ "shake_512") :=
  ⟨by decide, by decide, by decide,
   hash_unknown_length_error demoHashlib demoClock 0 [] "shake_512"
     (by decide) (by decide) (by decide)⟩

/-- Claim C7: the engine succeeds on the empty byte sequence for every
supported identifier; in particular the ConfigurationError branch is
unreachable for supported identifiers. -/
theorem hash_empty_ok (H : Hashlib) (clk : Clock) (n : Nat) (a : String)
    (ha : a ∈ supportedAlgorithms) :
    ∃ dg t, hash_with_algorithm H clk n [] a = .ok (dg, t) :=
  let ⟨dg, t, h, _⟩ := hash_ok_of_supported H clk n [] a ha
  ⟨dg, t, h⟩

/-- Claim C7, witness at shake_256 (the identifier that exercises the
length-table path) on the empty input. -/
theorem hash_empty_ok_witness :
    "shake_256" ∈ supportedAlgorithms ∧
    ∃ dg t, hash_with_algorithm demoHashlib demoClock 0 [] "shake_256" = .ok (dg, t) :=
  ⟨by decide, hash_empty_ok demoHashlib demoClock 0 "shake_256" (by decide)⟩

/-- Claim C8, counterexample: two successive engine calls with
identical inputs return different results, because the elapsed
component is the difference of two fresh clock readings (here the
accelerating clock gives 1 second, then 5 seconds). -/
theorem hash_repeat_calls_differ :
    hash_with_algorithm demoHashlib sqClock 0 [1, 2, 3] "sha256" ≠
    hash_with_algorithm demoHashlib sqClock 2 [1, 2, 3] "sha256" := by
  have hd : engineDigest demoHashlib [1, 2, 3] "sha256" =
      .ok (List.replicate 32 6) := by decide
  rw [hash_eq_map, hash_eq_map, hd]
  intro h
  have ht : sqClock.read (0 + 1) - sqClock.read 0 =
      sqClock.read (2 + 1) - sqClock.read 2 :=
    ((Prod.mk.injEq _ _ _ _).mp (Except.ok.inj h)).2
  simp only [sqClock] at ht
  norm_num at ht

/-- Claim C8 (amended): the digest component of the engine's result is
identical across repeated calls with identical data and algorithm — it
does not depend on the clock or the invocation state; only the elapsed
component may differ between calls. -/
theorem hash_digest_deterministic (H : Hashlib) (clk clk' : Clock)
    (n n' : Nat) (d : List Nat) (a : String) :
    (hash_with_algorithm H clk n d a).map Prod.fst =
    (hash_with_algorithm H clk' n' d a).map Prod.fst := by
  rw [hash_eq_map, hash_eq_map]
  cases engineDigest H d a <;> rfl

/-- Claim C10: on an existing readable file, the File Hasher with an
extendable-output identifier (shake_128 or shake_256) returns the
failure sentinel: `hexdigest()` is called without the length fallback,
its TypeError is caught by the generic handler, and None is returned
even though these identifiers are in the supported set. -/
theorem hash_file_shake_none (H : Hashlib)
    (fs : String → Except String (List Nat)) (path : String)
    (d : List Nat) (a : String) (hread : fs path = .ok d)
    (ha : a = "shake_128" ∨ a = "shake_256") :
    (hash_file H fs path a).1 = none := by
  have hmem : a ∈ supportedAlgorithms := by
    rcases ha with h | h <;> subst h <;> decide
  have hs := H.supported_all a hmem
  have hx : H.xof a = true := (H.xof_iff a hmem).mpr ha
  simp [hash_file, hread, hs, hx]

/-- Claim C10, witness: the readable demo file hashed with shake_256
yields the sentinel. -/
theorem hash_file_shake_none_witness :
    demoFs "f" = .ok [97, 98, 99] ∧
    (hash_file demoHashlib demoFs "f" "shake_256").1 = none :=
  ⟨by decide,
   hash_file_shake_none demoHashlib demoFs "f" [97, 98, 99] "shake_256"
     (by decide) (Or.inr rfl)⟩

/-- Claim C2, counterexample: the readable demo file "f" holds the
bytes 97 98 99; with the supported identifier shake_128 the Digest
Engine succeeds with a 56-byte digest, yet the File Hasher does not
return that digest rendered as hex — it returns the failure
sentinel. -/
theorem hash_file_differs_from_engine_on_shake :
    demoFs "f" = .ok [97, 98, 99] ∧
    hash_with_algorithm demoHashlib demoClock 0 [97, 98, 99] "shake_128" =
      .ok (List.replicate 56 38, demoClock.read 1 - demoClock.read 0) ∧
    (hash_file demoHashlib demoFs "f" "shake_128").1 ≠
      some (toHex (List.replicate 56 38)) := by
  refine ⟨by decide, ?_, by decide⟩
  have hd : engineDigest demoHashlib [97, 98, 99] "shake_128" =
      .ok (List.replicate 56 38) := by decide
  rw [hash_eq_map, hd]
  rfl

/-- Claim C2 (amended): for a readable file and every supported
identifier except the extendable-output ones (shake_128, shake_256,
i.e. those with the variable-length failure), the File Hasher returns
exactly the Digest Engine's digest on the file's contents rendered as
a lowercase hexadecimal string, discarding only the timing
component. -/
theorem hash_file_refines_engine (H : Hashlib)
    (fs : String → Except String (List Nat)) (clk : Clock) (n : Nat)
    (path : String) (d : List Nat) (a : String)
    (hread : fs path = .ok d) (ha : a ∈ supportedAlgorithms)
    (hx : H.xof a = false) :
    hash_with_algorithm H clk n d a =
      .ok (H.fixedDigest a d, clk.read (n + 1) - clk.read n) ∧
    (hash_file H fs path a).1 = some (toHex (H.fixedDigest a d)) := by
  have hs := H.supported_all a ha
  constructor
  · rw [hash_eq_map]
    simp [engineDigest, hs, hx, Except.map]
  · simp [hash_file, hread, hs, hx]

/-- Claim C2, witness: the demo file hashed with sha256 agrees with
the engine's digest rendered as hex. -/
theorem hash_file_refines_engine_witness :
    demoFs "f" = .ok [97, 98, 99] ∧
    "sha256" ∈ supportedAlgorithms ∧
    demoHashlib.xof "sha256" = false ∧
    (hash_with_algorithm demoHashlib demoClock 0 [97, 98, 99] "sha256" =
      .ok (demoHashlib.fixedDigest "sha256" [97, 98, 99],
           demoClock.read (0 + 1) - demoClock.read 0) ∧
     (hash_file demoHashlib demoFs "f" "sha256").1 =
       some (toHex (demoHashlib.fixedDigest "sha256" [97, 98, 99]))) :=
  ⟨by decide, by decide, by decide,
   hash_file_refines_engine demoHashlib demoFs demoClock 0 "f"
     [97, 98, 99] "sha256" (by decide) (by decide) (by decide)⟩

/-- Claim C4: for every size list and supported identifier, the
benchmark returns exactly one sample per requested size, in input
order: the samples' size components are the input list itself, every
elapsed component is non-negative, and each sample's elapsed component
is the one the engine reports for the payload of `size` repetitions of
the filler byte 97. -/
theorem benchmark_samples (H : Hashlib) (clk : Clock) (n : Nat)
    (sizes : List Nat) (a : String) (ha : a ∈ supportedAlgorithms) :
    ∃ samples, generate_hash_speed_test H clk n sizes a = .ok samples ∧
      samples.map Prod.fst = sizes ∧
      (∀ s ∈ samples, 0 ≤ s.2) ∧
      List.Forall₂ (fun size s => s.1 = size ∧ 0 ≤ s.2 ∧
          ∃ dg m, hash_with_algorithm H clk m (List.replicate size 97) a =
            .ok (dg, s.2))
        sizes samples := by
  induction sizes generalizing n with
  | nil => exact ⟨[], rfl, rfl, by simp, List.Forall₂.nil⟩
  | cons size rest ih =>
    obtain ⟨dg, t, hok, ht⟩ :=
      hash_ok_of_supported H clk n (List.replicate size 97) a ha
    obtain ⟨samples, hgen, hmap, hpos, hrel⟩ := ih (n + 2)
    refine ⟨(size, t) :: samples, ?_, ?_, ?_, ?_⟩
    · simp [generate_hash_speed_test, hok, hgen]
    · simp [hmap]
    · intro s hs
      rcases List.mem_cons.mp hs with hs | hs
      · subst hs; exact ht
      · exact hpos s hs
    · exact List.Forall₂.cons ⟨rfl, ht, dg, n, hok⟩ hrel

/-- Claim C4, witness: the benchmark on sizes 1000 and 10000 with
sha256 returns exactly 2 samples, in input order, with matching sizes
and non-negative elapsed components. -/
theorem benchmark_samples_witness :
    "sha256" ∈ supportedAlgorithms ∧
    ∃ samples,
      generate_hash_speed_test demoHashlib demoClock 0 [1000, 10000] "sha256" =
        .ok samples ∧
      samples.map Prod.fst = [1000, 10000] ∧
      (∀ s ∈ samples, 0 ≤ s.2) ∧
      List.Forall₂ (fun size s => s.1 = size ∧ 0 ≤ s.2 ∧
          ∃ dg m, hash_with_algorithm demoHashlib demoClock m
              (List.replicate size 97) "sha256" = .ok (dg, s.2))
        [1000, 10000] samples :=
  ⟨by decide,
   benchmark_samples demoHashlib demoClock 0 [1000, 10000] "sha256" (by decide)⟩

/-- Claim C6: an unreadable path (any I/O failure) or an unsupported
identifier makes the File Hasher return the sentinel None together
with a printed human-readable message; as a total function of its
explicit inputs it propagates no exception. -/
theorem hash_file_error_sentinel (H : Hashlib)
    (fs : String → Except String (List Nat)) (path a : String)
    (h : (∃ e, fs path = .error e) ∨ H.supported a = false) :
    (hash_file H fs path a).1 = none ∧
    (hash_file H fs path a).2 ≠ [] := by
  rcases h with ⟨e, he⟩ | hu
  · simp [hash_file, he]
  · rcases hfs : fs path with e | data
    · simp [hash_file, hfs]
    · simp [hash_file, hfs, hu]

/-- Claim C6, witness: the nonexistent demo path yields the sentinel
and a printed message, not a raised error. -/
theorem hash_file_error_sentinel_witness :
    demoFs "missing" = .error "No such file or directory" ∧
    (hash_file demoHashlib demoFs "missing" "sha256").1 = none ∧
    (hash_file demoHashlib demoFs "missing" "sha256").2 ≠ [] :=
  ⟨by decide,
   hash_file_error_sentinel demoHashlib demoFs "missing" "sha256"
     (Or.inl ⟨"No such file or directory", by decide⟩)⟩

/-- Claim C9: download_file returns a boolean — true exactly when the
fetch and the local write both succeed, in which case the destination
file holds the fetched bytes in full; on any transport or filesystem
error it returns false and logs a message, and as a total function of
its explicit inputs it raises nothing. -/
theorem download_file_contract (net : String → Except String (List Nat))
    (fs : String → Option (List Nat)) (canWrite : String → Bool)
    (writeErr url filename : String) :
    ((download_file net fs canWrite writeErr url filename).1 = true ↔
      ((∃ d, net url = .ok d) ∧ canWrite filename = true)) ∧
    (∀ d, net url = .ok d → canWrite filename = true →
      (download_file net fs canWrite writeErr url filename).2.1 filename =
        some d) ∧
    ((download_file net fs canWrite writeErr url filename).1 = false →
      (download_file net fs canWrite writeErr url filename).2.2 ≠ []) := by
  rcases hnet : net url with e | d
  · simp [download_file, hnet]
  · by_cases hw : canWrite filename = true
    · simp [download_file, hnet, hw]
    · rw [Bool.not_eq_true] at hw
      simp [download_file, hnet, hw]
